import Mathlib

/-
Verification of the ccda-bb section-dispatch and document-assembly engine
(src/index.js) in a shallow embedding.

JavaScript values are modelled by the inductive type JVal; XML trees built
through the libxmljs node/attr calls are modelled by XNode, with in-place
mutation rendered as functional appending of children.  The out-of-src
collaborators (lib/demographics.js, lib/payers.js, lib/results.js,
lib/social_history.js, lib/vitals.js, lib/templating_functions.js id
generator, and js2xml.fillUsingTemplate with its sectionLevel templates)
are modelled from the spec as a record of functions with the documented
signatures; theorems quantify over that record wherever the collaborators'
behaviour is irrelevant to the property.
-/

namespace CcdaBB

/-- JavaScript values, as far as the engine inspects them: undefined, null,
booleans, integers, strings, arrays and objects (ordered key-value lists). -/
inductive JVal where
  | undef : JVal
  | nul : JVal
  | bool : Bool → JVal
  | num : Int → JVal
  | str : String → JVal
  | arr : List JVal → JVal
  | obj : List (String × JVal) → JVal

/-- JavaScript truthiness: undefined, null, false, 0 and the empty string
are falsy; arrays and objects are always truthy. -/
def truthy : JVal → Bool
  | JVal.undef => false
  | JVal.nul => false
  | JVal.bool b => b
  | JVal.num n => n != 0
  | JVal.str s => s != ""
  | JVal.arr _ => true
  | JVal.obj _ => true

/-- First-match lookup of a key in an object's field list. -/
def lookupField : List (String × JVal) → String → JVal
  | [], _ => JVal.undef
  | (k, v) :: rest, key => if k = key then v else lookupField rest key

/-- Property access data[k]: objects look up the key, everything else
yields undefined (the engine only accesses string keys on objects). -/
def getKey : JVal → String → JVal
  | JVal.obj fs, k => lookupField fs k
  | _, _ => JVal.undef

/-- JavaScript short-circuit a and-and b. -/
def jand (a b : JVal) : JVal := if truthy a then b else a

/-- Enumerable own keys as iterated by a for..in loop: object field names,
array indices, string indices. -/
def keysOf : JVal → List String
  | JVal.obj fs => fs.map Prod.fst
  | JVal.arr xs => (List.range xs.length).map (fun i => toString i)
  | JVal.str s => (List.range s.length).map (fun i => toString i)
  | _ => []

/-- XML element: tag name, attribute list, text content, child list.
Models the libxmljs node structure that the engine builds. -/
inductive XNode where
  | mk : String → List (String × String) → String → List XNode → XNode

/-- Tag name of a node. -/
def XNode.name : XNode → String
  | XNode.mk n _ _ _ => n

/-- Attribute list of a node. -/
def XNode.attrsOf : XNode → List (String × String)
  | XNode.mk _ a _ _ => a

/-- Text content of a node. -/
def XNode.textOf : XNode → String
  | XNode.mk _ _ t _ => t

/-- Child list of a node. -/
def XNode.children : XNode → List XNode
  | XNode.mk _ _ _ c => c

/-- Append children to a node: the functional rendering of the in-place
mutation performed by libxmljs node() calls on a parent. -/
def appendKids : XNode → List XNode → XNode
  | XNode.mk n a t c, ks => XNode.mk n a t (c ++ ks)

/-- Serialize an attribute list. -/
def attrsString (l : List (String × String)) : String :=
  l.foldl (fun acc p => acc ++ " " ++ p.1 ++ "=\"" ++ p.2 ++ "\"") ""

mutual
/-- Serialize a node, modelling doc.toString(). -/
def xmlString : XNode → String
  | XNode.mk n a t cs =>
      "<" ++ n ++ attrsString a ++ ">" ++ t ++ xmlList cs ++ "</" ++ n ++ ">"

/-- Serialize a list of sibling nodes. -/
def xmlList : List XNode → String
  | [] => ""
  | c :: cs => xmlString c ++ xmlList cs
end

/-- The seven sectionLevel template descriptions required by the dispatch
chain (allergiesSectionEntriesRequired and friends), named abstractly. -/
inductive Template where
  | allergies
  | encounters
  | immunizations
  | medications
  | plan_of_care
  | problems
  | procedures

/-- Code-system name to id mapping (blue-button-meta codeSystems),
injected read-only. -/
def CodeMap := List (String × String)

/-- Modelled from the spec: the out-of-src collaborators of the engine.
Five bespoke section generators with signature
(data, codeSystemMap, isWholeDocument, parentNode), each rendered as the
list of children it appends to its parent together with the node it
returns; the generic template filler js2xml.fillUsingTemplate rendered as
the children it appends; and the id-block generator libCCDAGen.id rendered
as the single id block it appends, a function of the identifiers value. -/
structure Collabs where
  demographics : JVal → CodeMap → Bool → XNode → List XNode × XNode
  payers : JVal → CodeMap → Bool → XNode → List XNode × XNode
  results : JVal → CodeMap → Bool → XNode → List XNode × XNode
  social_history : JVal → CodeMap → Bool → XNode → List XNode × XNode
  vitals : JVal → CodeMap → Bool → XNode → List XNode × XNode
  fill : XNode → JVal → Template → List XNode
  idGen : JVal → XNode

/-- Translation of gen (src/index.js lines 50-80): the section dispatcher.
Returns the updated parent node together with the JavaScript return value
(none <-> undefined).  Branch order follows the source if-else chain. -/
def gen (C : Collabs) (cs : CodeMap) (data : JVal) (CCD : Bool)
    (xmlDoc : XNode) (section_name : String) : XNode × Option XNode :=
  if truthy data then
    if section_name = "demographics" then
      let r := C.demographics data cs CCD xmlDoc
      (appendKids xmlDoc r.1, some r.2)
    else if section_name = "allergies" then
      (appendKids xmlDoc (C.fill xmlDoc data Template.allergies), none)
    else if section_name = "encounters" then
      (appendKids xmlDoc (C.fill xmlDoc data Template.encounters), none)
    else if section_name = "immunizations" then
      (appendKids xmlDoc (C.fill xmlDoc data Template.immunizations), none)
    else if section_name = "medications" then
      (appendKids xmlDoc (C.fill xmlDoc data Template.medications), none)
    else if section_name = "payers" then
      let r := C.payers data cs CCD xmlDoc
      (appendKids xmlDoc r.1, some r.2)
    else if section_name = "plan_of_care" then
      (appendKids xmlDoc (C.fill xmlDoc data Template.plan_of_care), none)
    else if section_name = "problems" then
      (appendKids xmlDoc (C.fill xmlDoc data Template.problems), none)
    else if section_name = "procedures" then
      (appendKids xmlDoc (C.fill xmlDoc data Template.procedures), none)
    else if section_name = "results" then
      let r := C.results data cs CCD xmlDoc
      (appendKids xmlDoc r.1, some r.2)
    else if section_name = "social_history" then
      let r := C.social_history data cs CCD xmlDoc
      (appendKids xmlDoc r.1, some r.2)
    else if section_name = "vitals" then
      let r := C.vitals data cs CCD xmlDoc
      (appendKids xmlDoc r.1, some r.2)
    else (xmlDoc, none)
  else
    (xmlDoc, some xmlDoc)

/-- Translation of the sectionNames table (src/index.js lines 26-40). -/
def sectionNames : Nat → String
  | 0 => "null"
  | 1 => "demographics"
  | 2 => "allergies"
  | 3 => "encounters"
  | 4 => "immunizations"
  | 5 => "medications"
  | 6 => "payers"
  | 7 => "plan_of_care"
  | 8 => "problems"
  | 9 => "procedures"
  | 10 => "results"
  | 11 => "social_history"
  | 12 => "vitals"
  | _ => ""

/-- The thirteen names of the section registry. -/
def registryNames : List String :=
  ["null", "demographics", "allergies", "encounters", "immunizations",
   "medications", "payers", "plan_of_care", "problems", "procedures",
   "results", "social_history", "vitals"]

/-- Translation of the count_sections loop (src/index.js lines 153-158):
every enumerable key of the unwrapped data other than demographics counts. -/
def count_sections (data : JVal) : Nat :=
  ((keysOf data).filter (fun k => k ≠ "demographics")).length

/-- Test used by the body loop (src/index.js line 165) for the seven
sections routed to the template filler. -/
def templatedSection (name : String) : Bool :=
  name = "plan_of_care" || name = "procedures" || name = "encounters" ||
  name = "allergies" || name = "medications" || name = "immunizations" ||
  name = "problems"

/-- One iteration of the body loop (src/index.js lines 164-169): template
sections receive the whole data object, the others their own slice. -/
def bodyStep (C : Collabs) (cs : CodeMap) (data : JVal) (sb : XNode)
    (i : Nat) : XNode :=
  if templatedSection (sectionNames i) then
    (gen C cs data true sb (sectionNames i)).1
  else
    (gen C cs (getKey data (sectionNames i)) true sb (sectionNames i)).1

/-- The empty structuredBody node. -/
def emptySB : XNode := XNode.mk "structuredBody" [] "" []

/-- The structuredBody after the loop for i = 2 .. 12 over sectionNames. -/
def bodyNode (C : Collabs) (cs : CodeMap) (data : JVal) : XNode :=
  [2, 3, 4, 5, 6, 7, 8, 9, 10, 11, 12].foldl (bodyStep C cs data) emptySB

/-- The four fixed namespace attributes of the ClinicalDocument root. -/
def nsAttrs : List (String × String) :=
  [("xmlns:xsi", "http://www.w3.org/2001/XMLSchema-instance"),
   ("xmlns", "urn:hl7-org:v3"),
   ("xmlns:cda", "urn:hl7-org:v3"),
   ("xmlns:sdtc", "urn:hl7-org:sdtc")]

/-- The patientRole node before the demographics dispatch: one id block
sourced from the demographics slice's identifiers (src/index.js line 147). -/
def patientRoleBase (C : Collabs) (data : JVal) : XNode :=
  XNode.mk "patientRole" [] ""
    [C.idGen (jand (getKey data "demographics")
      (getKey (getKey data "demographics") "identifiers"))]

/-- The recordTarget/patientRole subtree (src/index.js lines 145-150): the
id block above, then the demographics dispatch in whole-document mode
against the patientRole node. -/
def patientRole (C : Collabs) (cs : CodeMap) (data : JVal) : XNode :=
  (gen C cs (getKey data (sectionNames 1)) true (patientRoleBase C data)
    (sectionNames 1)).1

/-- The header children of ClinicalDocument, in emission order
(src/index.js lines 105-150). -/
def headerChildren (C : Collabs) (cs : CodeMap) (meta data : JVal) :
    List XNode :=
  [XNode.mk "realmCode" [("code", "US")] "" [],
   XNode.mk "typeId"
     [("root", "2.16.840.1.113883.1.3"), ("extension", "POCD_HD000040")]
     "" [],
   XNode.mk "templateId" [("root", "2.16.840.1.113883.10.20.22.1.1")] "" [],
   XNode.mk "templateId" [("root", "2.16.840.1.113883.10.20.22.1.2")] "" [],
   C.idGen (jand meta (getKey meta "identifiers")),
   XNode.mk "code"
     [("codeSystem", "2.16.840.1.113883.6.1"), ("codeSystemName", "LOINC"),
      ("code", "34133-9"), ("displayName", "Summarization of Episode Note")]
     "" [],
   XNode.mk "title" [] "Community Health and Hospitals: Health Summary" [],
   XNode.mk "effectiveTime" [("value", "TODO")] "" [],
   XNode.mk "confidentialityCode"
     [("code", "N"), ("codeSystem", "2.16.840.1.113883.5.25")] "" [],
   XNode.mk "languageCode" [("code", "en-US")] "" [],
   XNode.mk "setId"
     [("extension", "sTT988"), ("root", "2.16.840.1.113883.19.5.99999.19")]
     "" [],
   XNode.mk "versionNumber" [("value", "1")] "" [],
   XNode.mk "recordTarget" [] "" [patientRole C cs data]]

/-- Unwrapping step of genWholeCCDA (src/index.js lines 91-93). -/
def unwrapData (record : JVal) : JVal :=
  if truthy (getKey record "data") then getKey record "data" else record

/-- Translation of genWholeCCDA (src/index.js lines 89-173): meta is taken
from the outer record before unwrapping; the header is always built; the
component/structuredBody is appended and the serialized string returned
exactly when count_sections is positive, otherwise the return value is
undefined. -/
def genWholeCCDA (C : Collabs) (cs : CodeMap) (record : JVal) :
    XNode × Option String :=
  let meta := getKey record "meta"
  let data := unwrapData record
  let bodyPart : List XNode :=
    if count_sections data > 0 then
      [XNode.mk "component" [] "" [bodyNode C cs data]]
    else []
  let root := XNode.mk "ClinicalDocument" nsAttrs ""
    (headerChildren C cs meta data ++ bodyPart)
  (root, if count_sections data > 0 then some (xmlString root) else none)

/-- Constructor tag of a value, used by the tracing collaborators below to
make the argument a handler received observable in the output tree. -/
def tagOf : JVal → String
  | JVal.undef => "undef"
  | JVal.nul => "null"
  | JVal.bool _ => "bool"
  | JVal.num _ => "num"
  | JVal.str _ => "str"
  | JVal.arr _ => "arr"
  | JVal.obj _ => "obj"

/-- A node recording which handler ran and the shape of the data it got. -/
def mkLog (lbl : String) (d : JVal) : XNode :=
  XNode.mk lbl [("tag", tagOf d)] "" []

/-- Modelled from the spec: one admissible instantiation of the out-of-src
collaborators (lib/demographics.js, lib/payers.js, lib/results.js,
lib/social_history.js, lib/vitals.js, js2xml.fillUsingTemplate,
libCCDAGen.id), obeying the documented signatures, that records in its
output which data value it was handed.  Used to evaluate the dispatcher on
concrete inputs. -/
def CX : Collabs :=
  { demographics := fun d _ _ p => ([mkLog "demographicsLog" d], p),
    payers := fun d _ _ p => ([mkLog "payersLog" d], p),
    results := fun d _ _ p => ([mkLog "resultsLog" d], p),
    social_history := fun d _ _ p => ([mkLog "socialHistoryLog" d], p),
    vitals := fun d _ _ p => ([mkLog "vitalsLog" d], p),
    fill := fun _ d _ => [mkLog "fillLog" d],
    idGen := fun d => XNode.mk "id" [("tag", tagOf d)] "" [] }

/-- Attribute-list view of a node's children, a decidable discriminator
used to separate unequal trees. -/
def attrsView (t : XNode) : List (List (String × String)) :=
  t.children.map XNode.attrsOf

/-- Name view of a node's children. -/
def namesView (t : XNode) : List String :=
  t.children.map XNode.name

/-- Whether a tree has a component child holding a structuredBody child,
i.e. whether whole-document assembly created a structuredBody. -/
def hasStructuredBody (t : XNode) : Bool :=
  t.children.any (fun c =>
    c.name == "component" && c.children.any (fun b =>
      b.name == "structuredBody"))

/-- One dispatch step of the body loop keyed by section name rather than
registry index: template-filled sections receive the whole data object,
the others their own slice, exactly as in bodyStep. -/
def stepByName (C : Collabs) (cs : CodeMap) (data : JVal) (sb : XNode)
    (name : String) : XNode :=
  if templatedSection name then (gen C cs data true sb name).1
  else (gen C cs (getKey data name) true sb name).1

/-- The eleven body section names in the canonical emission order of the
registry (indices 2 through 12). -/
def canonicalOrder : List String :=
  ["allergies", "encounters", "immunizations", "medications", "payers",
   "plan_of_care", "problems", "procedures", "results", "social_history",
   "vitals"]

/-- The body assembly written out section by section: the entire unwrapped
data object goes to the template filler for allergies, encounters,
immunizations, medications, plan_of_care, problems and procedures, while
payers, results, social_history and vitals receive only their own slice. -/
def bodyNodeByName (C : Collabs) (cs : CodeMap) (data : JVal) : XNode :=
  let s1 := (gen C cs data true emptySB "allergies").1
  let s2 := (gen C cs data true s1 "encounters").1
  let s3 := (gen C cs data true s2 "immunizations").1
  let s4 := (gen C cs data true s3 "medications").1
  let s5 := (gen C cs (getKey data "payers") true s4 "payers").1
  let s6 := (gen C cs data true s5 "plan_of_care").1
  let s7 := (gen C cs data true s6 "problems").1
  let s8 := (gen C cs data true s7 "procedures").1
  let s9 := (gen C cs (getKey data "results") true s8 "results").1
  let s10 := (gen C cs (getKey data "social_history") true s9
    "social_history").1
  (gen C cs (getKey data "vitals") true s10 "vitals").1

/-- The key under which each of the seven section templates looks up its
own slice of the record. -/
def templateKey : Template → String
  | Template.allergies => "allergies"
  | Template.encounters => "encounters"
  | Template.immunizations => "immunizations"
  | Template.medications => "medications"
  | Template.plan_of_care => "plan_of_care"
  | Template.problems => "problems"
  | Template.procedures => "procedures"

/-- Items of a section slice: an array yields its elements in order, any
other value is a single item. -/
def itemsOf : JVal → List JVal
  | JVal.arr xs => xs
  | v => [v]

/-- Modelled from the spec: one required-entry emission of the template
filler, producing the entry from the item's field when present and the
structurally required placeholder when absent. -/
def entryFor (item : JVal) : XNode :=
  match getKey item "value" with
  | JVal.str s => XNode.mk "entry" [] s []
  | _ => XNode.mk "entry" [("nullFlavor", "UNK")] "" []

/-- Modelled from the spec: js2xml.fillUsingTemplate (lib/templates, not
under src/).  It locates its section's slice by the template's key, no-ops
when the slice is absent, and otherwise emits one section fragment holding
the required entries for the items in input order. -/
def specFill (_p : XNode) (d : JVal) (t : Template) : List XNode :=
  let slice := getKey d (templateKey t)
  if truthy slice then
    [XNode.mk (templateKey t ++ "Section") [] ""
      ((itemsOf slice).map entryFor)]
  else []

/-- Modelled from the spec: a bespoke section generator body, emitting one
fragment of entries for the items of the data it is given. -/
def specBespoke (lbl : String) (d : JVal) (p : XNode) :
    List XNode × XNode :=
  ([XNode.mk lbl [] "" ((itemsOf d).map entryFor)], p)

/-- Modelled from the spec: a second admissible instantiation of the
out-of-src collaborators whose every access to the record goes through key
lookup and item iteration, as the spec describes for the template filler
and section generators. -/
def specCollabs : Collabs :=
  { demographics := fun d _ _ p => specBespoke "demographicsFragment" d p,
    payers := fun d _ _ p => specBespoke "payersFragment" d p,
    results := fun d _ _ p => specBespoke "resultsFragment" d p,
    social_history := fun d _ _ p => specBespoke "socialHistoryFragment" d p,
    vitals := fun d _ _ p => specBespoke "vitalsFragment" d p,
    fill := specFill,
    idGen := fun d => XNode.mk "id" [] "" ((itemsOf d).map entryFor) }

/-- C6: for every collaborator instance, code-system map and input record,
whole-document assembly produces a root element named ClinicalDocument
carrying exactly the four namespace attributes, whose children include the
typeId with root 2.16.840.1.113883.1.3 and extension POCD_HD000040, the
two templateIds 2.16.840.1.113883.10.20.22.1.1 and .1.2, the LOINC 34133-9
code block, the confidentialityCode N with codeSystem
2.16.840.1.113883.5.25, and the languageCode en-US, at their fixed header
positions. -/
theorem c6_header_literals (C : Collabs) (cs : CodeMap) (record : JVal) :
    (genWholeCCDA C cs record).1.name = "ClinicalDocument" ∧
    (genWholeCCDA C cs record).1.attrsOf =
      [("xmlns:xsi", "http://www.w3.org/2001/XMLSchema-instance"),
       ("xmlns", "urn:hl7-org:v3"),
       ("xmlns:cda", "urn:hl7-org:v3"),
       ("xmlns:sdtc", "urn:hl7-org:sdtc")] ∧
    (genWholeCCDA C cs record).1.children.get? 1 =
      some (XNode.mk "typeId"
        [("root", "2.16.840.1.113883.1.3"), ("extension", "POCD_HD000040")]
        "" []) ∧
    (genWholeCCDA C cs record).1.children.get? 2 =
      some (XNode.mk "templateId"
        [("root", "2.16.840.1.113883.10.20.22.1.1")] "" []) ∧
    (genWholeCCDA C cs record).1.children.get? 3 =
      some (XNode.mk "templateId"
        [("root", "2.16.840.1.113883.10.20.22.1.2")] "" []) ∧
    (genWholeCCDA C cs record).1.children.get? 5 =
      some (XNode.mk "code"
        [("codeSystem", "2.16.840.1.113883.6.1"),
         ("codeSystemName", "LOINC"), ("code", "34133-9"),
         ("displayName", "Summarization of Episode Note")] "" []) ∧
    (genWholeCCDA C cs record).1.children.get? 8 =
      some (XNode.mk "confidentialityCode"
        [("code", "N"), ("codeSystem", "2.16.840.1.113883.5.25")] "" []) ∧
    (genWholeCCDA C cs record).1.children.get? 9 =
      some (XNode.mk "languageCode" [("code", "en-US")] "" []) :=
  ⟨rfl, rfl, rfl, rfl, rfl, rfl, rfl, rfl⟩

/-- C7: with absent (falsy) section data, the single-section entry point
returns the parent node itself and appends nothing, for every section name,
mode, parent node and collaborator instance. -/
theorem c7_absent_data_passthrough (C : Collabs) (cs : CodeMap)
    (data : JVal) (CCD : Bool) (parent : XNode) (name : String)
    (h : truthy data = false) :
    gen C cs data CCD parent name = (parent, some parent) := by
  simp [gen, h]

/-- C7 witness: the pass-through at a concrete falsy input. -/
theorem c7_absent_data_passthrough_witness :
    truthy JVal.undef = false ∧
    gen CX [] JVal.undef false emptySB "allergies" = (emptySB, some emptySB) :=
  ⟨rfl, c7_absent_data_passthrough CX [] JVal.undef false emptySB "allergies" rfl⟩

/-- C8: for a section name outside the thirteen registry names and any
present (truthy) data, dispatch appends nothing to the parent and returns
undefined: unknown sections are silently ignored. -/
theorem c8_unknown_section_noop (C : Collabs) (cs : CodeMap) (d : JVal)
    (CCD : Bool) (parent : XNode) (name : String)
    (hname : name ∉ registryNames) (hd : truthy d = true) :
    gen C cs d CCD parent name = (parent, none) := by
  have h1 : ¬ name = "demographics" := by
    intro h; subst h; exact hname (by decide)
  have h2 : ¬ name = "allergies" := by
    intro h; subst h; exact hname (by decide)
  have h3 : ¬ name = "encounters" := by
    intro h; subst h; exact hname (by decide)
  have h4 : ¬ name = "immunizations" := by
    intro h; subst h; exact hname (by decide)
  have h5 : ¬ name = "medications" := by
    intro h; subst h; exact hname (by decide)
  have h6 : ¬ name = "payers" := by
    intro h; subst h; exact hname (by decide)
  have h7 : ¬ name = "plan_of_care" := by
    intro h; subst h; exact hname (by decide)
  have h8 : ¬ name = "problems" := by
    intro h; subst h; exact hname (by decide)
  have h9 : ¬ name = "procedures" := by
    intro h; subst h; exact hname (by decide)
  have h10 : ¬ name = "results" := by
    intro h; subst h; exact hname (by decide)
  have h11 : ¬ name = "social_history" := by
    intro h; subst h; exact hname (by decide)
  have h12 : ¬ name = "vitals" := by
    intro h; subst h; exact hname (by decide)
  simp [gen, hd, h1, h2, h3, h4, h5, h6, h7, h8, h9, h10, h11, h12]

/-- C8 witness: the silent no-op at a concrete unknown name and truthy
data. -/
theorem c8_unknown_section_noop_witness :
    "narrative" ∉ registryNames ∧ truthy (JVal.str "x") = true ∧
    gen CX [] (JVal.str "x") false emptySB "narrative" = (emptySB, none) :=
  ⟨by decide, rfl,
   c8_unknown_section_noop CX [] (JVal.str "x") false emptySB "narrative"
     (by decide) rfl⟩

/-- C9: with present (truthy) data the dispatcher's return value is
undefined for each of the seven template-filled sections, and is the
bespoke collaborator's returned node for each of the five bespoke
sections; hence the parent-node pass-through return happens only on
absent data. -/
theorem c9_return_values (C : Collabs) (cs : CodeMap) (d : JVal)
    (CCD : Bool) (p : XNode) (hd : truthy d = true) :
    (gen C cs d CCD p "allergies").2 = none ∧
    (gen C cs d CCD p "encounters").2 = none ∧
    (gen C cs d CCD p "immunizations").2 = none ∧
    (gen C cs d CCD p "medications").2 = none ∧
    (gen C cs d CCD p "plan_of_care").2 = none ∧
    (gen C cs d CCD p "problems").2 = none ∧
    (gen C cs d CCD p "procedures").2 = none ∧
    (gen C cs d CCD p "demographics").2 = some (C.demographics d cs CCD p).2 ∧
    (gen C cs d CCD p "payers").2 = some (C.payers d cs CCD p).2 ∧
    (gen C cs d CCD p "results").2 = some (C.results d cs CCD p).2 ∧
    (gen C cs d CCD p "social_history").2 =
      some (C.social_history d cs CCD p).2 ∧
    (gen C cs d CCD p "vitals").2 = some (C.vitals d cs CCD p).2 := by
  simp [gen, hd]

/-- C9 witness: the return-value split at a concrete truthy input. -/
theorem c9_return_values_witness :
    truthy (JVal.str "x") = true ∧
    (gen CX [] (JVal.str "x") false emptySB "allergies").2 = none ∧
    (gen CX [] (JVal.str "x") false emptySB "payers").2 =
      some (CX.payers (JVal.str "x") [] false emptySB).2 :=
  ⟨rfl,
   (c9_return_values CX [] (JVal.str "x") false emptySB rfl).1,
   (c9_return_values CX [] (JVal.str "x") false emptySB rfl).2.2.2.2.2.2.2.2.1⟩

/-- C1 counterexample: with the tracing collaborators and the record
containing an allergies slice and a payers slice, the body loop's
allergies step is not the call on the allergies slice the claim
prescribes (the filler actually received the whole object), and the
payers step is not the call on the whole object the claim prescribes
(the payers generator actually received only its slice). -/
theorem c1_dispatch_args_counterexample :
    bodyStep CX []
        (JVal.obj [("allergies", JVal.str "A"), ("payers", JVal.str "P")])
        emptySB 2 ≠
      (gen CX []
        (getKey (JVal.obj [("allergies", JVal.str "A"),
          ("payers", JVal.str "P")]) "allergies")
        true emptySB "allergies").1 ∧
    bodyStep CX []
        (JVal.obj [("allergies", JVal.str "A"), ("payers", JVal.str "P")])
        emptySB 6 ≠
      (gen CX []
        (JVal.obj [("allergies", JVal.str "A"), ("payers", JVal.str "P")])
        true emptySB "payers").1 :=
  ⟨fun h => absurd (congrArg attrsView h) (by decide),
   fun h => absurd (congrArg attrsView h) (by decide)⟩

/-- C1 amended: the dispatch rule is the opposite of the claimed one.  In
whole-document assembly the seven template-filled sections receive the
entire unwrapped data object and the four bespoke body sections receive
only their own slice data[sectionName]; the loop is exactly the by-name
assembly bodyNodeByName. -/
theorem c1_dispatch_args_amended (C : Collabs) (cs : CodeMap)
    (data : JVal) :
    bodyNode C cs data = bodyNodeByName C cs data := rfl

/-- C2 counterexample: handing the single-section entry point the
allergies slice of a record, with isWholeDocument false, does not
reproduce the fragment the whole-document body loop produces for
allergies on that record (the loop feeds the filler the whole object, the
single-section call fed it only the slice). -/
theorem c2_single_vs_whole_counterexample :
    (gen CX []
        (getKey (JVal.obj [("allergies", JVal.str "A")]) "allergies")
        false emptySB "allergies").1 ≠
      bodyStep CX [] (JVal.obj [("allergies", JVal.str "A")]) emptySB 2 :=
  fun h => absurd (congrArg attrsView h) (by decide)

/-- C2 amended: the single-section entry point reproduces each
whole-document body step when it is given the argument that step actually
passes — the entire unwrapped data object for the seven template-filled
sections (whose filler never sees the isWholeDocument flag), and the
section's own slice for the four bespoke sections provided the bespoke
generator's output does not depend on the isWholeDocument flag. -/
theorem c2_single_vs_whole_amended (C : Collabs) (cs : CodeMap)
    (data : JVal) (sb : XNode)
    (hp : ∀ d p, C.payers d cs true p = C.payers d cs false p)
    (hr : ∀ d p, C.results d cs true p = C.results d cs false p)
    (hs : ∀ d p, C.social_history d cs true p = C.social_history d cs false p)
    (hv : ∀ d p, C.vitals d cs true p = C.vitals d cs false p) :
    (gen C cs data false sb "allergies").1 = bodyStep C cs data sb 2 ∧
    (gen C cs data false sb "encounters").1 = bodyStep C cs data sb 3 ∧
    (gen C cs data false sb "immunizations").1 = bodyStep C cs data sb 4 ∧
    (gen C cs data false sb "medications").1 = bodyStep C cs data sb 5 ∧
    (gen C cs (getKey data "payers") false sb "payers").1 =
      bodyStep C cs data sb 6 ∧
    (gen C cs data false sb "plan_of_care").1 = bodyStep C cs data sb 7 ∧
    (gen C cs data false sb "problems").1 = bodyStep C cs data sb 8 ∧
    (gen C cs data false sb "procedures").1 = bodyStep C cs data sb 9 ∧
    (gen C cs (getKey data "results") false sb "results").1 =
      bodyStep C cs data sb 10 ∧
    (gen C cs (getKey data "social_history") false sb "social_history").1 =
      bodyStep C cs data sb 11 ∧
    (gen C cs (getKey data "vitals") false sb "vitals").1 =
      bodyStep C cs data sb 12 := by
  refine ⟨?_, ?_, ?_, ?_, ?_, ?_, ?_, ?_, ?_, ?_, ?_⟩
  · by_cases h : truthy data <;>
      simp [bodyStep, sectionNames, templatedSection, gen, h]
  · by_cases h : truthy data <;>
      simp [bodyStep, sectionNames, templatedSection, gen, h]
  · by_cases h : truthy data <;>
      simp [bodyStep, sectionNames, templatedSection, gen, h]
  · by_cases h : truthy data <;>
      simp [bodyStep, sectionNames, templatedSection, gen, h]
  · by_cases h : truthy (getKey data "payers") <;>
      simp [bodyStep, sectionNames, templatedSection, gen, h, hp]
  · by_cases h : truthy data <;>
      simp [bodyStep, sectionNames, templatedSection, gen, h]
  · by_cases h : truthy data <;>
      simp [bodyStep, sectionNames, templatedSection, gen, h]
  · by_cases h : truthy data <;>
      simp [bodyStep, sectionNames, templatedSection, gen, h]
  · by_cases h : truthy (getKey data "results") <;>
      simp [bodyStep, sectionNames, templatedSection, gen, h, hr]
  · by_cases h : truthy (getKey data "social_history") <;>
      simp [bodyStep, sectionNames, templatedSection, gen, h, hs]
  · by_cases h : truthy (getKey data "vitals") <;>
      simp [bodyStep, sectionNames, templatedSection, gen, h, hv]

/-- C2 amended witness: the flag-insensitivity hypotheses discharged at
the tracing collaborators, evaluated on a concrete record. -/
theorem c2_single_vs_whole_amended_witness :
    (gen CX [] (JVal.obj [("allergies", JVal.str "A")]) false emptySB
        "allergies").1 =
      bodyStep CX [] (JVal.obj [("allergies", JVal.str "A")]) emptySB 2 :=
  (c2_single_vs_whole_amended CX [] (JVal.obj [("allergies", JVal.str "A")])
    emptySB (fun _ _ => rfl) (fun _ _ => rfl) (fun _ _ => rfl)
    (fun _ _ => rfl)).1

/-- Appending children never renames a node. -/
theorem appendKids_name (p : XNode) (ks : List XNode) :
    (appendKids p ks).name = p.name := by
  cases p
  rfl

/-- Dispatch never renames the node it is handed: it only appends
children. -/
theorem gen_fst_name (C : Collabs) (cs : CodeMap) (d : JVal) (CCD : Bool)
    (p : XNode) (n : String) : (gen C cs d CCD p n).1.name = p.name := by
  by_cases hd : truthy d = true
  case neg => simp [gen, hd]
  by_cases h1 : n = "demographics"
  case pos => subst h1; simp [gen, hd, appendKids_name]
  by_cases h2 : n = "allergies"
  case pos => subst h2; simp [gen, hd, appendKids_name]
  by_cases h3 : n = "encounters"
  case pos => subst h3; simp [gen, hd, appendKids_name]
  by_cases h4 : n = "immunizations"
  case pos => subst h4; simp [gen, hd, appendKids_name]
  by_cases h5 : n = "medications"
  case pos => subst h5; simp [gen, hd, appendKids_name]
  by_cases h6 : n = "payers"
  case pos => subst h6; simp [gen, hd, appendKids_name]
  by_cases h7 : n = "plan_of_care"
  case pos => subst h7; simp [gen, hd, appendKids_name]
  by_cases h8 : n = "problems"
  case pos => subst h8; simp [gen, hd, appendKids_name]
  by_cases h9 : n = "procedures"
  case pos => subst h9; simp [gen, hd, appendKids_name]
  by_cases h10 : n = "results"
  case pos => subst h10; simp [gen, hd, appendKids_name]
  by_cases h11 : n = "social_history"
  case pos => subst h11; simp [gen, hd, appendKids_name]
  by_cases h12 : n = "vitals"
  case pos => subst h12; simp [gen, hd, appendKids_name]
  simp [gen, hd, h1, h2, h3, h4, h5, h6, h7, h8, h9, h10, h11, h12]

/-- One body-loop step never renames the accumulated node. -/
theorem bodyStep_name (C : Collabs) (cs : CodeMap) (d : JVal) (sb : XNode)
    (i : Nat) : (bodyStep C cs d sb i).name = sb.name := by
  unfold bodyStep
  split_ifs <;> exact gen_fst_name _ _ _ _ _ _

/-- The accumulated body node keeps the structuredBody tag through the
whole loop. -/
theorem bodyNode_name (C : Collabs) (cs : CodeMap) (d : JVal) :
    (bodyNode C cs d).name = "structuredBody" := by
  simp only [bodyNode, List.foldl, bodyStep_name]
  rfl

/-- C3 counterexample: on the record whose only top-level keys are meta
and demographics (no data wrapper), whole-document assembly does create a
component/structuredBody node, because the meta key itself is counted as
a non-demographics section key. -/
theorem c3_header_only_counterexample :
    hasStructuredBody
      (genWholeCCDA CX []
        (JVal.obj
          [("meta", JVal.obj [("identifiers", JVal.arr [JVal.str "docid"])]),
           ("demographics",
             JVal.obj [("identifiers", JVal.arr [JVal.str "patid"])])])).1
      = true := by decide

/-- C3 amended: for a record whose only top-level keys are meta and
demographics, assembly produces the header with the recordTarget and
patientRole subtree as always, but it also creates a
component/structuredBody node and returns the serialized document,
because the for..in count of non-demographics keys includes meta. -/
theorem c3_header_only_amended (C : Collabs) (cs : CodeMap) (m dg : JVal) :
    hasStructuredBody
      (genWholeCCDA C cs
        (JVal.obj [("meta", m), ("demographics", dg)])).1 = true ∧
    (genWholeCCDA C cs (JVal.obj [("meta", m), ("demographics", dg)])).2 =
      some (xmlString
        (genWholeCCDA C cs (JVal.obj [("meta", m), ("demographics", dg)])).1) ∧
    (genWholeCCDA C cs
        (JVal.obj [("meta", m), ("demographics", dg)])).1.children.get? 12 =
      some (XNode.mk "recordTarget" [] ""
        [patientRole C cs (JVal.obj [("meta", m), ("demographics", dg)])]) := by
  refine ⟨?_, ?_, rfl⟩
  · simp [genWholeCCDA, unwrapData, count_sections, keysOf, getKey,
      lookupField, hasStructuredBody, headerChildren, truthy]
    refine ⟨XNode.mk "component" [] ""
        [bodyNode C cs (JVal.obj [("meta", m), ("demographics", dg)])],
      by simp [XNode.children], rfl,
      bodyNode C cs (JVal.obj [("meta", m), ("demographics", dg)]),
      by simp [XNode.children], bodyNode_name C cs _⟩
  · simp [genWholeCCDA, unwrapData, count_sections, keysOf, getKey,
      lookupField, truthy]

/-- C5 counterexample: on a record with no demographics slice the
patientRole subtree holds only the id block — the demographics handler
(which the tracing collaborators make observable) was not invoked at all,
although the claim demands exactly one invocation for every record. -/
theorem c5_patient_role_counterexample :
    (genWholeCCDA CX []
        (JVal.obj [("allergies", JVal.str "A")])).1.children.get? 12 =
      some (XNode.mk "recordTarget" [] ""
        [XNode.mk "patientRole" [] ""
          [XNode.mk "id" [("tag", "undef")] "" []]]) := rfl

/-- C5 amended: whole-document assembly always emits exactly one
recordTarget whose patientRole carries the single id block sourced from
the demographics slice's identifiers as its first child; the demographics
handler is invoked exactly once against the patientRole node when the
demographics slice is present (truthy), and not at all when it is
absent. -/
theorem c5_patient_role_amended (C : Collabs) (cs : CodeMap)
    (record : JVal) :
    (genWholeCCDA C cs record).1.children.get? 12 =
      some (XNode.mk "recordTarget" [] ""
        [patientRole C cs (unwrapData record)]) ∧
    (patientRole C cs (unwrapData record)).children.get? 0 =
      some (C.idGen (jand (getKey (unwrapData record) "demographics")
        (getKey (getKey (unwrapData record) "demographics")
          "identifiers"))) ∧
    (truthy (getKey (unwrapData record) "demographics") = true →
      patientRole C cs (unwrapData record) =
        appendKids (patientRoleBase C (unwrapData record))
          (C.demographics (getKey (unwrapData record) "demographics") cs
            true (patientRoleBase C (unwrapData record))).1) ∧
    (truthy (getKey (unwrapData record) "demographics") = false →
      patientRole C cs (unwrapData record) =
        patientRoleBase C (unwrapData record)) := by
  refine ⟨rfl, ?_, ?_, ?_⟩
  · by_cases h : truthy (getKey (unwrapData record) "demographics") <;>
      simp [patientRole, patientRoleBase, sectionNames, gen, h, appendKids,
        XNode.children]
  · intro h
    simp [patientRole, patientRoleBase, sectionNames, gen, h]
  · intro h
    simp [patientRole, patientRoleBase, sectionNames, gen, h]

/-- C5 amended witness: on a record with a truthy demographics slice the
handler runs exactly once against the patientRole node. -/
theorem c5_patient_role_amended_witness :
    patientRole CX []
      (unwrapData (JVal.obj [("demographics",
        JVal.obj [("identifiers", JVal.arr [JVal.str "patid"])])])) =
      appendKids
        (patientRoleBase CX
          (unwrapData (JVal.obj [("demographics",
            JVal.obj [("identifiers", JVal.arr [JVal.str "patid"])])])))
        (CX.demographics
          (getKey (unwrapData (JVal.obj [("demographics",
            JVal.obj [("identifiers", JVal.arr [JVal.str "patid"])])]))
            "demographics") [] true
          (patientRoleBase CX
            (unwrapData (JVal.obj [("demographics",
              JVal.obj [("identifiers",
                JVal.arr [JVal.str "patid"])])])))).1 :=
  (c5_patient_role_amended CX []
    (JVal.obj [("demographics",
      JVal.obj [("identifiers", JVal.arr [JVal.str "patid"])])])).2.2.1 rfl

/-- C10: the setId block (extension sTT988, root
2.16.840.1.113883.19.5.99999.19) and the versionNumber block (value 1)
are fixed literals at fixed header positions for every input record, and
the header id block is a function of the outer record's meta alone: two
records with the same outer meta get the same header id block even when
one carries a data wrapper with a different inner meta, and the block is
exactly the id generator applied to meta.identifiers. -/
theorem c10_setid_version_meta (C : Collabs) (cs : CodeMap)
    (r1 r2 : JVal) (hmeta : getKey r1 "meta" = getKey r2 "meta") :
    (genWholeCCDA C cs r1).1.children.get? 10 =
      some (XNode.mk "setId"
        [("extension", "sTT988"),
         ("root", "2.16.840.1.113883.19.5.99999.19")] "" []) ∧
    (genWholeCCDA C cs r1).1.children.get? 11 =
      some (XNode.mk "versionNumber" [("value", "1")] "" []) ∧
    (genWholeCCDA C cs r1).1.children.get? 4 =
      some (C.idGen (jand (getKey r1 "meta")
        (getKey (getKey r1 "meta") "identifiers"))) ∧
    (genWholeCCDA C cs r1).1.children.get? 4 =
      (genWholeCCDA C cs r2).1.children.get? 4 := by
  refine ⟨rfl, rfl, rfl, ?_⟩
  have e1 : (genWholeCCDA C cs r1).1.children.get? 4 =
      some (C.idGen (jand (getKey r1 "meta")
        (getKey (getKey r1 "meta") "identifiers"))) := rfl
  have e2 : (genWholeCCDA C cs r2).1.children.get? 4 =
      some (C.idGen (jand (getKey r2 "meta")
        (getKey (getKey r2 "meta") "identifiers"))) := rfl
  rw [e1, e2, hmeta]

/-- C10 witness: a record without a wrapper and a record with a data
wrapper holding a different inner meta, agreeing on the outer meta, get
the same header id block. -/
theorem c10_setid_version_meta_witness :
    (genWholeCCDA CX []
        (JVal.obj [("meta",
          JVal.obj [("identifiers", JVal.arr [JVal.str "outer"])])])).1.children.get? 4 =
      (genWholeCCDA CX []
        (JVal.obj [("meta",
           JVal.obj [("identifiers", JVal.arr [JVal.str "outer"])]),
          ("data", JVal.obj [("meta",
             JVal.obj [("identifiers", JVal.arr [JVal.str "inner"])]),
            ("allergies", JVal.str "A")])])).1.children.get? 4 :=
  (c10_setid_version_meta CX []
    (JVal.obj [("meta",
      JVal.obj [("identifiers", JVal.arr [JVal.str "outer"])])])
    (JVal.obj [("meta",
       JVal.obj [("identifiers", JVal.arr [JVal.str "outer"])]),
      ("data", JVal.obj [("meta",
         JVal.obj [("identifiers", JVal.arr [JVal.str "inner"])]),
        ("allergies", JVal.str "A")])]) rfl).2.2.2

/-- Key lookup in a duplicate-free field list is invariant under
permutation of the fields. -/
theorem lookupField_perm :
    ∀ {fs fs' : List (String × JVal)}, fs.Perm fs' →
      (fs.map Prod.fst).Nodup → ∀ k, lookupField fs k = lookupField fs' k := by
  intro fs fs' h
  induction h with
  | nil => intro _ _; rfl
  | cons x h ih =>
      intro hnd k
      obtain ⟨xk, xv⟩ := x
      simp only [lookupField]
      by_cases hx : xk = k
      · simp [hx]
      · simp only [if_neg hx]
        exact ih (by simpa [List.nodup_cons] using hnd.of_cons) k
  | swap x y l =>
      intro hnd k
      obtain ⟨xk, xv⟩ := x
      obtain ⟨yk, yv⟩ := y
      have hne : yk ≠ xk := by
        simp only [List.map_cons, List.nodup_cons, List.mem_cons,
          not_or] at hnd
        exact hnd.1.1
      by_cases hy : yk = k <;> by_cases hx : xk = k
      · exact absurd (hy.trans hx.symm) hne
      · simp [lookupField, hy, hx]
      · simp [lookupField, hy, hx]
      · simp [lookupField, hy, hx]
  | trans h1 h2 ih1 ih2 =>
      intro hnd k
      exact (ih1 hnd k).trans
        (ih2 (((h1.map Prod.fst).nodup_iff).mp hnd) k)

/-- Property access on an object is invariant under permutation of its
duplicate-free field list. -/
theorem getKey_perm {fs fs' : List (String × JVal)} (h : fs.Perm fs')
    (hnd : (fs.map Prod.fst).Nodup) (k : String) :
    getKey (JVal.obj fs) k = getKey (JVal.obj fs') k :=
  lookupField_perm h hnd k

/-- The modelled template filler reads its input only through the
template's key, so it agrees on objects with equal key lookups. -/
theorem specFill_congr {d d' : JVal}
    (hk : ∀ k, getKey d k = getKey d' k) (p : XNode) (t : Template) :
    specFill p d t = specFill p d' t := by
  unfold specFill
  rw [hk]

/-- The by-name body assembly over the spec-modelled collaborators is
determined by truthiness of the record and its key lookups. -/
theorem bodyNodeByName_spec_congr (cs : CodeMap) (d d' : JVal)
    (htr : truthy d = truthy d')
    (hk : ∀ k, getKey d k = getKey d' k) :
    bodyNodeByName specCollabs cs d = bodyNodeByName specCollabs cs d' := by
  have hfill : ∀ p t, specFill p d t = specFill p d' t :=
    specFill_congr hk
  have hA : ∀ sb, (gen specCollabs cs d true sb "allergies").1 =
      (gen specCollabs cs d' true sb "allergies").1 := by
    intro sb
    by_cases h : truthy d = true
    · have h' : truthy d' = true := htr ▸ h
      simp [gen, h, h', specCollabs, hfill]
    · have h' : ¬ truthy d' = true := htr ▸ h
      simp [gen, h, h']
  have hB : ∀ sb, (gen specCollabs cs d true sb "encounters").1 =
      (gen specCollabs cs d' true sb "encounters").1 := by
    intro sb
    by_cases h : truthy d = true
    · have h' : truthy d' = true := htr ▸ h
      simp [gen, h, h', specCollabs, hfill]
    · have h' : ¬ truthy d' = true := htr ▸ h
      simp [gen, h, h']
  have hC : ∀ sb, (gen specCollabs cs d true sb "immunizations").1 =
      (gen specCollabs cs d' true sb "immunizations").1 := by
    intro sb
    by_cases h : truthy d = true
    · have h' : truthy d' = true := htr ▸ h
      simp [gen, h, h', specCollabs, hfill]
    · have h' : ¬ truthy d' = true := htr ▸ h
      simp [gen, h, h']
  have hD : ∀ sb, (gen specCollabs cs d true sb "medications").1 =
      (gen specCollabs cs d' true sb "medications").1 := by
    intro sb
    by_cases h : truthy d = true
    · have h' : truthy d' = true := htr ▸ h
      simp [gen, h, h', specCollabs, hfill]
    · have h' : ¬ truthy d' = true := htr ▸ h
      simp [gen, h, h']
  have hE : ∀ sb, (gen specCollabs cs d true sb "plan_of_care").1 =
      (gen specCollabs cs d' true sb "plan_of_care").1 := by
    intro sb
    by_cases h : truthy d = true
    · have h' : truthy d' = true := htr ▸ h
      simp [gen, h, h', specCollabs, hfill]
    · have h' : ¬ truthy d' = true := htr ▸ h
      simp [gen, h, h']
  have hF : ∀ sb, (gen specCollabs cs d true sb "problems").1 =
      (gen specCollabs cs d' true sb "problems").1 := by
    intro sb
    by_cases h : truthy d = true
    · have h' : truthy d' = true := htr ▸ h
      simp [gen, h, h', specCollabs, hfill]
    · have h' : ¬ truthy d' = true := htr ▸ h
      simp [gen, h, h']
  have hG : ∀ sb, (gen specCollabs cs d true sb "procedures").1 =
      (gen specCollabs cs d' true sb "procedures").1 := by
    intro sb
    by_cases h : truthy d = true
    · have h' : truthy d' = true := htr ▸ h
      simp [gen, h, h', specCollabs, hfill]
    · have h' : ¬ truthy d' = true := htr ▸ h
      simp [gen, h, h']
  simp only [bodyNodeByName, hk, hA, hB, hC, hD, hE, hF, hG]

/-- Body assembly over the spec-modelled collaborators is invariant under
permutation of a duplicate-free record's fields. -/
theorem bodyNode_obj_congr (cs : CodeMap) {fs fs' : List (String × JVal)}
    (hperm : fs.Perm fs') (hnd : (fs.map Prod.fst).Nodup) :
    bodyNode specCollabs cs (JVal.obj fs) =
      bodyNode specCollabs cs (JVal.obj fs') := by
  have e : ∀ d, bodyNode specCollabs cs d = bodyNodeByName specCollabs cs d :=
    fun _ => rfl
  rw [e, e]
  exact bodyNodeByName_spec_congr cs (JVal.obj fs) (JVal.obj fs') rfl
    (getKey_perm hperm hnd)

/-- C4: the body loop visits the sections in the fixed canonical order
allergies, encounters, immunizations, medications, payers, plan_of_care,
problems, procedures, results, social_history, vitals, for every
collaborator instance and record; whenever assembly creates a
structuredBody it hangs that loop's result under the component node; and
over the spec-modelled collaborators the assembled body is unchanged by
any permutation of the record's (duplicate-free) keys, so the emission
order never follows the input key order. -/
theorem c4_canonical_order (cs : CodeMap) (fs fs' : List (String × JVal))
    (hperm : fs.Perm fs') (hnd : (fs.map Prod.fst).Nodup) :
    (∀ (C : Collabs) (d : JVal),
      bodyNode C cs d = canonicalOrder.foldl (stepByName C cs d) emptySB) ∧
    (∀ (C : Collabs) (r : JVal), count_sections (unwrapData r) > 0 →
      (genWholeCCDA C cs r).1.children.get? 13 =
        some (XNode.mk "component" [] ""
          [bodyNode C cs (unwrapData r)])) ∧
    bodyNode specCollabs cs (JVal.obj fs) =
      bodyNode specCollabs cs (JVal.obj fs') := by
  refine ⟨fun C d => rfl, ?_, bodyNode_obj_congr cs hperm hnd⟩
  intro C r h
  simp [genWholeCCDA, headerChildren, h, XNode.children]

/-- C4 witness: the component position and the key-permutation invariance
at concrete records. -/
theorem c4_canonical_order_witness :
    (genWholeCCDA specCollabs []
        (JVal.obj [("allergies", JVal.str "A")])).1.children.get? 13 =
      some (XNode.mk "component" [] ""
        [bodyNode specCollabs []
          (unwrapData (JVal.obj [("allergies", JVal.str "A")]))]) ∧
    bodyNode specCollabs []
        (JVal.obj
          [("allergies", JVal.arr [JVal.obj [("value", JVal.str "a1")]]),
           ("vitals", JVal.str "v")]) =
      bodyNode specCollabs []
        (JVal.obj
          [("vitals", JVal.str "v"),
           ("allergies", JVal.arr [JVal.obj [("value", JVal.str "a1")]])]) :=
  ⟨(c4_canonical_order []
      [("allergies", JVal.arr [JVal.obj [("value", JVal.str "a1")]]),
       ("vitals", JVal.str "v")]
      [("vitals", JVal.str "v"),
       ("allergies", JVal.arr [JVal.obj [("value", JVal.str "a1")]])]
      (List.Perm.swap _ _ _) (by decide)).2.1 specCollabs
      (JVal.obj [("allergies", JVal.str "A")]) (by decide),
   (c4_canonical_order []
      [("allergies", JVal.arr [JVal.obj [("value", JVal.str "a1")]]),
       ("vitals", JVal.str "v")]
      [("vitals", JVal.str "v"),
       ("allergies", JVal.arr [JVal.obj [("value", JVal.str "a1")]])]
      (List.Perm.swap _ _ _) (by decide)).2.2⟩

end CcdaBB
